import Mathlib

/-!
Verification development for the atmo-sphere backend's comfort-scoring and
spatial-aggregation engine (src/backend/nasa_service.py and
src/backend/main.py).

The embedding is a shallow one over exact rational arithmetic:

* Python floats and ints become `ℚ` / `ℤ`; arithmetic is exact.
* Python's builtin `round` (banker's rounding, ties to even) becomes `pyRound`;
  `round(x, 1)` / `round(x, 2)` become `pyRound1` / `pyRound2`.
* A JSON statistics dictionary whose keys may be absent becomes a record of
  `Option ℚ` fields; `dict.get(k, default)` becomes `Option.getD`.
* A Python function that can raise (the point evaluator, the aggregator)
  becomes a function into `Except String _`; a dictionary of specialty scores
  becomes an association list `List (String × ℚ)`.
* `point_in_poly` can raise `ZeroDivisionError` when a straddling edge has
  `yj - yi == -1e-12` exactly, so its embedding returns `Option Bool`
  (`none` = the Python code raises); constant display-only fields (the
  `units` labels) are omitted.
-/

/-- Python's builtin `round` on an exact rational: round half to even. -/
def pyRound (q : ℚ) : ℤ :=
  if q - ⌊q⌋ < 1/2 then ⌊q⌋
  else if 1/2 < q - ⌊q⌋ then ⌊q⌋ + 1
  else if ⌊q⌋ % 2 = 0 then ⌊q⌋ else ⌊q⌋ + 1

/-- Python's `round(x, 1)`: round to one decimal digit, ties to even. -/
def pyRound1 (q : ℚ) : ℚ := (pyRound (q * 10) : ℚ) / 10

/-- Python's `round(x, 2)`: round to two decimal digits, ties to even. -/
def pyRound2 (q : ℚ) : ℚ := (pyRound (q * 100) : ℚ) / 100

/-- Python's `min` over a nonempty list (`min(lons)` etc. in main.py);
0 on the empty list, which the code never reaches. -/
def listMin : List ℚ → ℚ
  | [] => 0
  | x :: xs => xs.foldl min x

/-- Python's `max` over a nonempty list; 0 on the empty list. -/
def listMax : List ℚ → ℚ
  | [] => 0
  | x :: xs => xs.foldl max x

/-- The aggregation helper `mean` of main.py:
`sum(values) / len(values) if values else 0`. -/
def mean (values : List ℚ) : ℚ :=
  if values.isEmpty then 0 else values.sum / values.length

/-- `math.ceil(math.sqrt(n))` for a natural number: the least `k` with
`n ≤ k * k`, computed by scanning `0, 1, …, n`. -/
def ceilSqrt (n : ℕ) : ℕ :=
  (((List.range (n + 1)).filter fun k => n ≤ k * k).headD n)

/-- The literal `1e-12` used by `point_in_poly` in main.py. -/
def epsQ : ℚ := 1 / 1000000000000

-- ## Data model (the pydantic models of main.py)

/-- `ComfortProfile` of main.py: integer thresholds. -/
structure ComfortProfile where
  temp_min : ℤ
  temp_max : ℤ
  wind_max : ℤ
  rain_chance_max : ℤ
  humidity_max : ℤ

/-- `ScoreWeights` of main.py: float weights, one per comfort dimension. -/
structure ScoreWeights where
  temperature : ℚ
  wind : ℚ
  rain : ℚ
  humidity : ℚ

/-- The statistics `get_climatological_analysis` reads for the requested
month, after the JSON fetch: `raw_params.get(NAME, {}).get(month_key, _)`
yields `some v` when the statistic is present and its month entry exists,
`none` otherwise.  `title` is `data.get("header", {}).get("title", _)`.
`ALLSKY_SFC_SW_DWN` is requested by the code but never read, so it is not
modelled. -/
structure RawParams where
  T2M : Option ℚ
  T2M_MAX : Option ℚ
  T2M_MIN : Option ℚ
  WS10M : Option ℚ
  WS10M_MAX : Option ℚ
  RH2M : Option ℚ
  PRECTOTCORR : Option ℚ
  KT : Option ℚ
  title : Option String

/-- `calculate_heat_index` of nasa_service.py: NOAA-style heat index in
Celsius, with a simple formula below 80 °F and the full regression above. -/
def calculate_heat_index (T RH : ℚ) : ℚ :=
  let T_F := T * 9/5 + 32
  if T_F < 80 then
    0.5 * (T_F + 61.0 + ((T_F - 68.0) * 1.2) + (RH * 0.094))
  else
    -42.379 + 2.04901523*T_F + 10.14333127*RH - 0.22475541*T_F*RH
      - 0.00683783*T_F*T_F - 0.05481717*RH*RH + 0.00122874*T_F*T_F*RH
      + 0.00085282*T_F*RH*RH - 0.00000199*T_F*T_F*RH*RH

-- ## Point evaluator (get_climatological_analysis, processing stage)

/-- `temp_avg = raw_params.get("T2M", {}).get(month_key, -999)`. -/
def temp_avg (raw : RawParams) : ℚ := raw.T2M.getD (-999)

/-- `wind_avg = raw_params.get("WS10M", {}).get(month_key, 0)`. -/
def wind_avg (raw : RawParams) : ℚ := raw.WS10M.getD 0

/-- `humidity_avg = raw_params.get("RH2M", {}).get(month_key, 50)`. -/
def humidity_avg (raw : RawParams) : ℚ := raw.RH2M.getD 50

/-- `precip_avg_daily = raw_params.get("PRECTOTCORR", {}).get(month_key, 0)`. -/
def precip_avg_daily (raw : RawParams) : ℚ := raw.PRECTOTCORR.getD 0

/-- `rain_probability = min(precip_avg_daily * 15, 100)`. -/
def rain_probability (raw : RawParams) : ℚ :=
  min (precip_avg_daily raw * 15) 100

/-- `clearness_index = raw_params.get("KT", {}).get(month_key, 0.5)`. -/
def clearness_index (raw : RawParams) : ℚ := raw.KT.getD 0.5

/-- `temp_in_comfort = profile.temp_min <= temp_avg <= profile.temp_max`. -/
def temp_in_comfort (raw : RawParams) (profile : ComfortProfile) : Bool :=
  decide ((profile.temp_min : ℚ) ≤ temp_avg raw) &&
    decide (temp_avg raw ≤ (profile.temp_max : ℚ))

/-- `wind_in_comfort = wind_avg <= profile.wind_max`. -/
def wind_in_comfort (raw : RawParams) (profile : ComfortProfile) : Bool :=
  decide (wind_avg raw ≤ (profile.wind_max : ℚ))

/-- `humidity_in_comfort = humidity_avg <= profile.humidity_max`. -/
def humidity_in_comfort (raw : RawParams) (profile : ComfortProfile) : Bool :=
  decide (humidity_avg raw ≤ (profile.humidity_max : ℚ))

/-- `rain_in_comfort = rain_probability <= profile.rain_chance_max`. -/
def rain_in_comfort (raw : RawParams) (profile : ComfortProfile) : Bool :=
  decide (rain_probability raw ≤ (profile.rain_chance_max : ℚ))

/-- The `scores` dictionary entries: `1 if in_comfort else 0`. -/
def scoreOf (b : Bool) : ℚ := if b then 1 else 0

/-- `total_weight = sum(weights.dict().values())`. -/
def total_weight (weights : ScoreWeights) : ℚ :=
  weights.temperature + weights.wind + weights.rain + weights.humidity

/-- `weighted_score = sum(scores[key] * weights.dict()[key] for key in scores)`. -/
def weighted_score (raw : RawParams) (profile : ComfortProfile)
    (weights : ScoreWeights) : ℚ :=
  scoreOf (temp_in_comfort raw profile) * weights.temperature +
    scoreOf (wind_in_comfort raw profile) * weights.wind +
    scoreOf (rain_in_comfort raw profile) * weights.rain +
    scoreOf (humidity_in_comfort raw profile) * weights.humidity

/-- `overall_score = round((weighted_score / total_weight) * 100) if
total_weight > 0 else 0`. -/
def overall_score (raw : RawParams) (profile : ComfortProfile)
    (weights : ScoreWeights) : ℤ :=
  if 0 < total_weight weights then
    pyRound (weighted_score raw profile weights / total_weight weights * 100)
  else 0

/-- The `"temperature"` block of the response. -/
structure TempInfo where
  avg : ℚ
  min : ℚ
  max : ℚ
  meets_profile : Bool

/-- The `"wind"` block of the response. -/
structure WindInfo where
  avg : ℚ
  max : ℚ
  meets_profile : Bool

/-- The `"humidity"` block of the response. -/
structure HumidityInfo where
  avg : ℚ
  meets_profile : Bool

/-- The `"precipitation"` block of the response. -/
structure PrecipInfo where
  avg_daily_amount : ℚ
  estimated_daily_chance : ℚ
  meets_profile : Bool

/-- The `"sunlight"` block of the response. -/
structure SunInfo where
  sunny_day_likelihood : ℤ
  clearness_index : ℚ

/-- The `"atmospheric_signature"` object of the response. -/
structure Signature where
  temperature : TempInfo
  wind : WindInfo
  humidity : HumidityInfo
  precipitation : PrecipInfo
  sunlight : SunInfo

/-- A successful point analysis: the JSON object built at the end of
`get_climatological_analysis`.  Specialty scores are an association list
because the aggregator treats them as a dictionary with an open key set. -/
structure PointResult where
  overall_score : ℤ
  location : String
  atmospheric_signature : Signature
  specialty_scores : List (String × ℚ)

/-- The data-processing stage of `get_climatological_analysis` in
nasa_service.py, after the HTTP fetch: from the month's raw statistics,
the profile and the weights, either the full scored result or the error
raised when the core temperature statistic is missing (absent key, or the
provider's `-999` missing-data sentinel, detected as `< -900`). -/
def get_climatological_analysis (raw : RawParams) (profile : ComfortProfile)
    (weights : ScoreWeights) : Except String PointResult :=
  if temp_avg raw < -900 then
    .error "Core temperature data (T2M) is missing from the API response for this location."
  else
    let tmax := raw.T2M_MAX.getD (temp_avg raw)
    let tmin := raw.T2M_MIN.getD (temp_avg raw)
    let wmax := raw.WS10M_MAX.getD (wind_avg raw)
    let heat_index_avg := calculate_heat_index (temp_avg raw) (humidity_avg raw)
    let uncomfortable_chance : ℚ :=
      if 27 < temp_avg raw then min ((heat_index_avg - 27) * 10) 100 else 0
    let golden_hour_score := pyRound (clearness_index raw * 10)
    let sunny_day_likelihood := pyRound (clearness_index raw * 100)
    let score := overall_score raw profile weights
    .ok
      { overall_score := score
        location := raw.title.getD "Unknown Location"
        atmospheric_signature :=
          { temperature :=
              { avg := pyRound1 (temp_avg raw), min := pyRound1 tmin, max := pyRound1 tmax
                meets_profile := temp_in_comfort raw profile }
            wind :=
              { avg := pyRound1 (wind_avg raw), max := pyRound1 wmax
                meets_profile := wind_in_comfort raw profile }
            humidity :=
              { avg := pyRound1 (humidity_avg raw)
                meets_profile := humidity_in_comfort raw profile }
            precipitation :=
              { avg_daily_amount := pyRound2 (precip_avg_daily raw)
                estimated_daily_chance := pyRound1 (rain_probability raw)
                meets_profile := rain_in_comfort raw profile }
            sunlight :=
              { sunny_day_likelihood := sunny_day_likelihood
                clearness_index := clearness_index raw } }
        specialty_scores :=
          [("uncomfortable_heat_chance", (pyRound (max 0 uncomfortable_chance) : ℚ)),
           ("golden_hour_quality", (golden_hour_score : ℚ)),
           ("outdoor_activity_index", (pyRound (((score : ℚ) + (sunny_day_likelihood : ℚ)) / 2) : ℚ))] }

-- ## Region sampler (analyze_polygon of main.py, sampling stage)

/-- One iteration of the edge loop in `point_in_poly`: `(xi, yi)` is the
current vertex, `(xj, yj)` the previous one; `none` records that Python
would raise `ZeroDivisionError` (straddling edge with
`yj - yi + 1e-12 == 0`). -/
def pipStep (lon lat : ℚ) (acc : Option Bool) (e : (ℚ × ℚ) × (ℚ × ℚ)) :
    Option Bool :=
  match acc with
  | none => none
  | some inside =>
    let xi := e.1.1
    let yi := e.1.2
    let xj := e.2.1
    let yj := e.2.2
    if (decide (lat < yi)) != (decide (lat < yj)) then
      if yj - yi + epsQ = 0 then none
      else if lon < (xj - xi) * (lat - yi) / (yj - yi + epsQ) + xi then
        some (!inside)
      else some inside
    else some inside

/-- The (current, previous) vertex pairs that `point_in_poly` walks:
`j` starts at the last index, then trails `i` by one. -/
def polyEdges (poly : List (ℚ × ℚ)) : List ((ℚ × ℚ) × (ℚ × ℚ)) :=
  match poly.getLast? with
  | none => []
  | some last => poly.zip (last :: poly.dropLast)

/-- `point_in_poly(lon, lat, poly)` of main.py: even-odd ray casting with the
`1e-12` guard; `none` when the Python code would raise. -/
def point_in_poly (lon lat : ℚ) (poly : List (ℚ × ℚ)) : Option Bool :=
  (polyEdges poly).foldl (pipStep lon lat) (some false)

/-- `centroid_lon = sum(lons) / len(lons)` over the ring's vertices. -/
def centroid_lon (ring : List (ℚ × ℚ)) : ℚ :=
  (ring.map Prod.fst).sum / (ring.length : ℚ)

/-- `centroid_lat = sum(lats) / len(lats)` over the ring's vertices. -/
def centroid_lat (ring : List (ℚ × ℚ)) : ℚ :=
  (ring.map Prod.snd).sum / (ring.length : ℚ)

/-- The row-major list of grid cell centers `(lon, lat)`: outer index `i`
along longitude, inner index `j` along latitude, cell center at offset
`(i + 0.5, j + 0.5)` steps. -/
def grid_cells (min_lon min_lat lon_step lat_step : ℚ) (side : ℕ) :
    List (ℚ × ℚ) :=
  (List.range side).flatMap fun (i : ℕ) =>
    (List.range side).map fun (j : ℕ) =>
      (min_lon + ((i : ℚ) + 0.5) * lon_step, min_lat + ((j : ℚ) + 0.5) * lat_step)

/-- The sampling loop of `analyze_polygon`: scan the cell centers in order,
append `(lat, lon)` for each center inside the ring, and break out as soon
as `target` samples are collected.  `none` when `point_in_poly` raises. -/
def scanGrid (ring : List (ℚ × ℚ)) (target : ℕ) :
    List (ℚ × ℚ) → List (ℚ × ℚ) → Option (List (ℚ × ℚ))
  | [], acc => some acc
  | c :: cs, acc =>
    match point_in_poly c.1 c.2 ring with
    | none => none
    | some b =>
      let acc2 := if b then acc ++ [(c.2, c.1)] else acc
      if target ≤ acc2.length then some acc2 else scanGrid ring target cs acc2

/-- `min_lon = min(lons)` of the ring. -/
def bbox_min_lon (ring : List (ℚ × ℚ)) : ℚ := listMin (ring.map Prod.fst)

/-- `max_lon = max(lons)` of the ring. -/
def bbox_max_lon (ring : List (ℚ × ℚ)) : ℚ := listMax (ring.map Prod.fst)

/-- `min_lat = min(lats)` of the ring. -/
def bbox_min_lat (ring : List (ℚ × ℚ)) : ℚ := listMin (ring.map Prod.snd)

/-- `max_lat = max(lats)` of the ring. -/
def bbox_max_lat (ring : List (ℚ × ℚ)) : ℚ := listMax (ring.map Prod.snd)

/-- `target = max(1, min(36, int(request.sample_count)))`. -/
def clamp_count (sample_count : ℤ) : ℕ := (max 1 (min 36 sample_count)).toNat

/-- `side = max(1, int(math.ceil(math.sqrt(target))))`. -/
def grid_side (sample_count : ℤ) : ℕ := max 1 (ceilSqrt (clamp_count sample_count))

/-- The cell centers the sampling loop scans for this ring and requested
count: step sizes are the bounding-box extents over `side`. -/
def ring_cells (ring : List (ℚ × ℚ)) (sample_count : ℤ) : List (ℚ × ℚ) :=
  grid_cells (bbox_min_lon ring) (bbox_min_lat ring)
    ((bbox_max_lon ring - bbox_min_lon ring) / (grid_side sample_count : ℚ))
    ((bbox_max_lat ring - bbox_min_lat ring) / (grid_side sample_count : ℚ))
    (grid_side sample_count)

/-- The sample-generation stage of `analyze_polygon`: bounding box, the
degenerate-box centroid fallback, grid scanning capped at the clamped
`sample_count`, and the empty-scan centroid fallback.  Returns the list of
`(lat, lon)` samples, or `none` when `point_in_poly` raises. -/
def generate_samples (ring : List (ℚ × ℚ)) (sample_count : ℤ) :
    Option (List (ℚ × ℚ)) :=
  if bbox_max_lon ring - bbox_min_lon ring ≤ 0 ∨
      bbox_max_lat ring - bbox_min_lat ring ≤ 0 then
    some [(centroid_lat ring, centroid_lon ring)]
  else
    match scanGrid ring (clamp_count sample_count) (ring_cells ring sample_count) [] with
    | none => none
    | some samples =>
      some (if samples.isEmpty then [(centroid_lat ring, centroid_lon ring)] else samples)

-- ## Aggregator (analyze_polygon of main.py, aggregation stage)

/-- `sample_meets` of main.py: the conjunction of the four per-dimension
`meets_profile` booleans of one sample's signature. -/
def sample_meets (a : Signature) : Bool :=
  a.temperature.meets_profile && a.wind.meets_profile &&
    a.precipitation.meets_profile && a.humidity.meets_profile

/-- The majority vote used for every aggregated `meets_profile`:
`(count / n) >= 0.5`. -/
def majority_vote (count n : ℕ) : Bool :=
  decide ((0.5 : ℚ) ≤ (count : ℚ) / (n : ℚ))

/-- The specialty-score aggregation of main.py: keys are the union of the
key sets across samples, and each key is averaged over **all** samples with
`d.get(k, 0)` supplying 0 where the key is absent. -/
def aggregate_specialty (spec : List (List (String × ℚ))) : List (String × ℤ) :=
  let keys := (spec.flatMap fun d => d.map Prod.fst).dedup
  keys.map fun k => (k, pyRound (mean (spec.map fun d => ((d.lookup k).getD 0))))

/-- What the spec's words describe for specialty aggregation, stated for
comparison with `aggregate_specialty`: each key averaged over only the
samples that report it. -/
def specialty_avg_reported_only (spec : List (List (String × ℚ))) :
    List (String × ℤ) :=
  let keys := (spec.flatMap fun d => d.map Prod.fst).dedup
  keys.map fun k =>
    (k, pyRound (mean (((spec.filter fun d => (d.lookup k).isSome).map
      fun d => ((d.lookup k).getD 0)))))

/-- The aggregated region verdict built by `analyze_polygon` (the per-sample
detail list, which merely echoes inputs, is not modelled). -/
structure RegionResult where
  overall_score : ℤ
  location : String
  atmospheric_signature : Signature
  specialty_scores : List (String × ℤ)
  percent_meet_profile : ℤ
  samples_evaluated : ℕ

/-- The success branch of the aggregation stage of `analyze_polygon`: from
the non-empty list of successful point results, average every numeric field,
majority-vote every `meets_profile`, aggregate specialty scores, and compute
the final verdict. -/
def aggregate_success (successful : List PointResult) : RegionResult :=
    let n := successful.length
    let atms := successful.map (·.atmospheric_signature)
    let temps := atms.map (·.temperature)
    let winds := atms.map (·.wind)
    let hums := atms.map (·.humidity)
    let precs := atms.map (·.precipitation)
    let suns := atms.map (·.sunlight)
    let spec := successful.map (·.specialty_scores)
    let meet_count := (successful.filter fun s => sample_meets s.atmospheric_signature).length
    { overall_score := pyRound (mean (successful.map fun s => (s.overall_score : ℚ)))
      location := (successful.head?.map (·.location)).getD "Polygon region"
      atmospheric_signature :=
        { temperature :=
            { avg := pyRound1 (mean (temps.map (·.avg)))
              min := pyRound1 (mean (temps.map (·.min)))
              max := pyRound1 (mean (temps.map (·.max)))
              meets_profile := majority_vote (temps.countP (·.meets_profile)) n }
          wind :=
            { avg := pyRound1 (mean (winds.map (·.avg)))
              max := pyRound1 (mean (winds.map (·.max)))
              meets_profile := majority_vote (winds.countP (·.meets_profile)) n }
          humidity :=
            { avg := pyRound1 (mean (hums.map (·.avg)))
              meets_profile := majority_vote (hums.countP (·.meets_profile)) n }
          precipitation :=
            { avg_daily_amount := pyRound2 (mean (precs.map (·.avg_daily_amount)))
              estimated_daily_chance := pyRound1 (mean (precs.map (·.estimated_daily_chance)))
              meets_profile := majority_vote (precs.countP (·.meets_profile)) n }
          sunlight :=
            { sunny_day_likelihood := pyRound (mean (suns.map fun s => (s.sunny_day_likelihood : ℚ)))
              clearness_index := pyRound2 (mean (suns.map (·.clearness_index))) } }
      specialty_scores := aggregate_specialty spec
      percent_meet_profile := pyRound (((meet_count : ℚ) / (n : ℚ)) * 100)
      samples_evaluated := n }

/-- The aggregation stage of `analyze_polygon`: drop failed point results,
fail when none succeeded, otherwise build the aggregated region verdict. -/
def aggregate (results : List (Except String PointResult)) :
    Except String RegionResult :=
  let successful := results.filterMap Except.toOption
  if successful.isEmpty then .error "All sample analyses failed"
  else .ok (aggregate_success successful)

-- ## Concrete inputs used by the witnesses

/-- A default-valued comfort profile (the pydantic defaults of main.py). -/
def profile0 : ComfortProfile :=
  { temp_min := 10, temp_max := 25, wind_max := 15
    rain_chance_max := 20, humidity_max := 80 }

/-- Unit weights (the pydantic defaults of main.py). -/
def weights1 : ScoreWeights := { temperature := 1, wind := 1, rain := 1, humidity := 1 }

/-- All-zero weights. -/
def weights0 : ScoreWeights := { temperature := 0, wind := 0, rain := 0, humidity := 0 }

/-- A complete, valid statistics record for one month. -/
def raw0 : RawParams :=
  { T2M := some 20, T2M_MAX := some 26, T2M_MIN := some 14
    WS10M := some 5, WS10M_MAX := some 9, RH2M := some 60
    PRECTOTCORR := some 0.5, KT := some 0.8, title := some "Test Location" }

/-- `raw0` with the precipitation statistic carrying the `-999` sentinel. -/
def rawNeg : RawParams := { raw0 with PRECTOTCORR := some (-999) }

/-- The unit-square ring, in `(lon, lat)` vertex order. -/
def ringSq : List (ℚ × ℚ) := [(0, 0), (1, 0), (1, 1), (0, 1)]

/-- A degenerate ring: zero bounding-box width. -/
def ringDeg : List (ℚ × ℚ) := [(0, 0), (0, 5)]

/-- A concrete signature whose four dimensions all meet the profile. -/
def sigA : Signature :=
  { temperature := { avg := 20, min := 15, max := 25, meets_profile := true }
    wind := { avg := 5, max := 9, meets_profile := true }
    humidity := { avg := 60, meets_profile := true }
    precipitation := { avg_daily_amount := 0.5, estimated_daily_chance := 7.5, meets_profile := true }
    sunlight := { sunny_day_likelihood := 80, clearness_index := 0.8 } }

/-- A concrete signature whose wind dimension fails the profile. -/
def sigB : Signature :=
  { temperature := { avg := 22, min := 16, max := 28, meets_profile := true }
    wind := { avg := 20, max := 30, meets_profile := false }
    humidity := { avg := 70, meets_profile := true }
    precipitation := { avg_daily_amount := 1, estimated_daily_chance := 15, meets_profile := true }
    sunlight := { sunny_day_likelihood := 60, clearness_index := 0.6 } }

/-- A successful point result reporting one specialty key. -/
def prA : PointResult :=
  { overall_score := 100, location := "A", atmospheric_signature := sigA
    specialty_scores := [("golden_hour_quality", 10)] }

/-- A successful point result reporting no specialty keys at all. -/
def prB : PointResult :=
  { overall_score := 50, location := "B", atmospheric_signature := sigB
    specialty_scores := [] }

/-- The specialty-score dictionaries of the successful results, as the
aggregator extracts them (`spec` in main.py). -/
def successful_specialty (results : List (Except String PointResult)) :
    List (List (String × ℚ)) :=
  (results.filterMap Except.toOption).map (·.specialty_scores)

-- ## Convexity vocabulary for the point-in-polygon claim

/-- The 2-D cross product `(a - o) × (b - o)`: the turn orientation at `o`. -/
def cross2 (o a b : ℚ × ℚ) : ℚ :=
  (a.1 - o.1) * (b.2 - o.2) - (a.2 - o.2) * (b.1 - o.1)

/-- Ring vertex with cyclic wraparound. -/
def ringVertex (ring : List (ℚ × ℚ)) (i : ℕ) : ℚ × ℚ :=
  ring.getD (i % ring.length) (0, 0)

/-- A strictly convex, non-degenerate ring: at least three vertices, and
every consecutive vertex triple turns strictly in the same direction (all
counter-clockwise or all clockwise); this forces positive area and excludes
collinear or repeated consecutive vertices. -/
def strictly_convex (ring : List (ℚ × ℚ)) : Bool :=
  decide (3 ≤ ring.length) &&
    (((List.range ring.length).all fun i =>
        decide (0 < cross2 (ringVertex ring i) (ringVertex ring (i + 1))
          (ringVertex ring (i + 2)))) ||
     ((List.range ring.length).all fun i =>
        decide (cross2 (ringVertex ring i) (ringVertex ring (i + 1))
          (ringVertex ring (i + 2)) < 0)))

/-- A point strictly interior to a ring: strictly on the same side of every
edge. -/
def strictly_inside (p : ℚ × ℚ) (ring : List (ℚ × ℚ)) : Bool :=
  ((List.range ring.length).all fun i =>
      decide (0 < cross2 (ringVertex ring i) (ringVertex ring (i + 1)) p)) ||
  ((List.range ring.length).all fun i =>
      decide (cross2 (ringVertex ring i) (ringVertex ring (i + 1)) p < 0))

/-- A strictly convex triangle with one nearly horizontal edge (latitude span
`2e-12`, twice the code's epsilon), in `(lon, lat)` vertex order. -/
def cexRing : List (ℚ × ℚ) := [(8, 0), (10, 0), (12, 2 * epsQ)]

-- ## Helper lemmas

theorem pyRound_cases (q : ℚ) : pyRound q = ⌊q⌋ ∨ pyRound q = ⌊q⌋ + 1 := by
  unfold pyRound
  split_ifs <;> simp

theorem pyRound_nonneg {q : ℚ} (h : 0 ≤ q) : 0 ≤ pyRound q := by
  have hf : 0 ≤ ⌊q⌋ := Int.floor_nonneg.mpr h
  rcases pyRound_cases q with h1 | h1 <;> omega

theorem pyRound_le {q : ℚ} {n : ℤ} (h : q ≤ (n : ℚ)) : pyRound q ≤ n := by
  have hf : ⌊q⌋ ≤ n := by
    have := Int.floor_le_floor h
    rwa [Int.floor_intCast] at this
  have hs : (1 : ℚ)/2 ≤ q - ⌊q⌋ → ⌊q⌋ + 1 ≤ n := by
    intro h2
    have hq : (⌊q⌋ : ℚ) < (n : ℚ) := by linarith
    exact Int.add_one_le_iff.mpr (by exact_mod_cast hq)
  unfold pyRound
  split_ifs with h1 h2 h3
  · exact hf
  · exact hs (by linarith [not_lt.mp h1])
  · exact hf
  · exact hs (by linarith [not_lt.mp h1])

theorem scoreOf_nonneg (b : Bool) : 0 ≤ scoreOf b := by
  unfold scoreOf; split <;> norm_num

theorem scoreOf_le_one (b : Bool) : scoreOf b ≤ 1 := by
  unfold scoreOf; split <;> norm_num

/-- With non-negative weights the overall score is bounded by `[0, 100]`. -/
theorem overall_score_bounds (raw : RawParams) (profile : ComfortProfile)
    (weights : ScoreWeights)
    (h1 : 0 ≤ weights.temperature) (h2 : 0 ≤ weights.wind)
    (h3 : 0 ≤ weights.rain) (h4 : 0 ≤ weights.humidity) :
    0 ≤ overall_score raw profile weights ∧ overall_score raw profile weights ≤ 100 := by
  unfold overall_score
  split_ifs with h
  · have hS0 : 0 ≤ weighted_score raw profile weights := by
      unfold weighted_score
      have := scoreOf_nonneg (temp_in_comfort raw profile)
      have := scoreOf_nonneg (wind_in_comfort raw profile)
      have := scoreOf_nonneg (rain_in_comfort raw profile)
      have := scoreOf_nonneg (humidity_in_comfort raw profile)
      nlinarith
    have hSW : weighted_score raw profile weights ≤ total_weight weights := by
      unfold weighted_score total_weight
      have := scoreOf_le_one (temp_in_comfort raw profile)
      have := scoreOf_le_one (wind_in_comfort raw profile)
      have := scoreOf_le_one (rain_in_comfort raw profile)
      have := scoreOf_le_one (humidity_in_comfort raw profile)
      have := scoreOf_nonneg (temp_in_comfort raw profile)
      have := scoreOf_nonneg (wind_in_comfort raw profile)
      have := scoreOf_nonneg (rain_in_comfort raw profile)
      have := scoreOf_nonneg (humidity_in_comfort raw profile)
      nlinarith
    have h0 : 0 ≤ weighted_score raw profile weights / total_weight weights * 100 := by
      positivity
    have h100 : weighted_score raw profile weights / total_weight weights * 100 ≤ 100 := by
      rw [div_mul_eq_mul_div, div_le_iff₀ h]
      nlinarith
    exact ⟨pyRound_nonneg h0, pyRound_le (by exact_mod_cast h100)⟩
  · norm_num

/-- A successful point analysis reports exactly the composite `overall_score`. -/
theorem get_ok_overall {raw : RawParams} {profile : ComfortProfile}
    {weights : ScoreWeights} {r : PointResult}
    (hok : get_climatological_analysis raw profile weights = .ok r) :
    r.overall_score = overall_score raw profile weights := by
  unfold get_climatological_analysis at hok
  split_ifs at hok
  all_goals obtain rfl := (Except.ok.inj hok).symm
  all_goals rfl

/-- A present, non-sentinel temperature statistic makes the analysis succeed. -/
theorem get_ok_of_temp {raw : RawParams} (profile : ComfortProfile)
    (weights : ScoreWeights) {t : ℚ} (hT : raw.T2M = some t) (ht : ¬ t < -900) :
    ∃ r, get_climatological_analysis raw profile weights = .ok r := by
  have ht2 : ¬ temp_avg raw < -900 := by
    rw [temp_avg, hT]
    simpa using ht
  unfold get_climatological_analysis
  rw [if_neg ht2]
  exact ⟨_, rfl⟩

-- ## Claims about the point evaluator

/-- C1: for every point evaluation that succeeds with non-negative weights,
the returned `overall_score` is an integer in `[0, 100]`, and (when the total
weight is positive) it is the weighted sum of the four 0/1 dimension passes
divided by the total weight, scaled to 100 and rounded. -/
theorem C1_overall_score_in_range (raw : RawParams) (profile : ComfortProfile)
    (weights : ScoreWeights) (r : PointResult)
    (h1 : 0 ≤ weights.temperature) (h2 : 0 ≤ weights.wind)
    (h3 : 0 ≤ weights.rain) (h4 : 0 ≤ weights.humidity)
    (hok : get_climatological_analysis raw profile weights = .ok r) :
    (0 ≤ r.overall_score ∧ r.overall_score ≤ 100) ∧
      (0 < total_weight weights →
        r.overall_score =
          pyRound (weighted_score raw profile weights / total_weight weights * 100)) := by
  rw [get_ok_overall hok]
  refine ⟨overall_score_bounds raw profile weights h1 h2 h3 h4, fun hw => ?_⟩
  rw [overall_score, if_pos hw]

/-- C1 witness: a concrete successful evaluation with unit weights has its
score inside `[0, 100]`. -/
theorem C1_witness :
    ∃ r, get_climatological_analysis raw0 profile0 weights1 = Except.ok r ∧
      0 ≤ r.overall_score ∧ r.overall_score ≤ 100 := by
  obtain ⟨r, hok⟩ :=
    get_ok_of_temp profile0 weights1 (rfl : raw0.T2M = some 20) (by norm_num)
  exact ⟨r, hok,
    (C1_overall_score_in_range raw0 profile0 weights1 r (by norm_num [weights1])
      (by norm_num [weights1]) (by norm_num [weights1]) (by norm_num [weights1]) hok).1⟩

/-- C3: when the four weights sum to 0, a successful point evaluation reports
`overall_score = 0` regardless of the pass/fail pattern (the guard
`total_weight > 0` avoids the division). -/
theorem C3_zero_total_weight (raw : RawParams) (profile : ComfortProfile)
    (weights : ScoreWeights) (r : PointResult)
    (hw : total_weight weights = 0)
    (hok : get_climatological_analysis raw profile weights = .ok r) :
    r.overall_score = 0 := by
  rw [get_ok_overall hok, overall_score, if_neg (by simp [hw])]

/-- C3 witness: all-zero weights on a concrete successful evaluation give
score 0. -/
theorem C3_witness :
    ∃ r, get_climatological_analysis raw0 profile0 weights0 = Except.ok r ∧
      r.overall_score = 0 := by
  obtain ⟨r, hok⟩ :=
    get_ok_of_temp profile0 weights0 (rfl : raw0.T2M = some 20) (by norm_num)
  exact ⟨r, hok,
    C3_zero_total_weight raw0 profile0 weights0 r (by norm_num [total_weight, weights0]) hok⟩

/-- C4: the point evaluation fails (returns an error rather than a scored
result) if and only if the average temperature statistic is absent or is the
provider's missing-value sentinel (a value below `-900`); by the `Except`
return type no partial result exists — every run is exactly one of a full
`.ok` result or an `.error`. -/
theorem C4_failure_iff_temp_missing (raw : RawParams) (profile : ComfortProfile)
    (weights : ScoreWeights) :
    (∃ e, get_climatological_analysis raw profile weights = .error e) ↔
      (raw.T2M = none ∨ ∃ v, raw.T2M = some v ∧ v < -900) := by
  unfold get_climatological_analysis
  rcases hT : raw.T2M with _ | v
  · have h9 : temp_avg raw = -999 := by rw [temp_avg, hT]; rfl
    rw [h9, if_pos (by norm_num : (-999 : ℚ) < -900)]
    simp [hT]
  · have h9 : temp_avg raw = v := by rw [temp_avg, hT]; rfl
    rw [h9]
    split_ifs with hv
    · simp [hT, hv]
    · simp [hT, hv]

/-- C10: a present, valid temperature together with a `-999` sentinel in the
precipitation statistic does not fail the evaluation; the sentinel is used as
an ordinary number, so `estimated_daily_chance = min(-999 * 15, 100)`, which
is negative — the rain-chance output is not bounded below by 0. -/
theorem C10_sentinel_not_fatal (raw : RawParams) (profile : ComfortProfile)
    (weights : ScoreWeights) (t : ℚ)
    (hT : raw.T2M = some t) (ht : ¬ t < -900)
    (hP : raw.PRECTOTCORR = some (-999)) :
    ∃ r, get_climatological_analysis raw profile weights = .ok r ∧
      r.atmospheric_signature.precipitation.estimated_daily_chance =
        min ((-999 : ℚ) * 15) 100 ∧
      r.atmospheric_signature.precipitation.estimated_daily_chance < 0 := by
  have ht2 : ¬ temp_avg raw < -900 := by
    rw [temp_avg, hT]
    simpa using ht
  have hr : rain_probability raw = -14985 := by
    rw [rain_probability, precip_avg_daily, hP]
    norm_num
  unfold get_climatological_analysis
  rw [if_neg ht2]
  refine ⟨_, rfl, ?_, ?_⟩
  · show pyRound1 (rain_probability raw) = min ((-999 : ℚ) * 15) 100
    rw [hr]
    norm_num [pyRound1, pyRound]
  · show pyRound1 (rain_probability raw) < 0
    rw [hr]
    norm_num [pyRound1, pyRound]

/-- C10 witness: the concrete record with precipitation `-999` succeeds and
reports the negative rain chance. -/
theorem C10_witness :
    ∃ r, get_climatological_analysis rawNeg profile0 weights1 = Except.ok r ∧
      r.atmospheric_signature.precipitation.estimated_daily_chance =
        min ((-999 : ℚ) * 15) 100 ∧
      r.atmospheric_signature.precipitation.estimated_daily_chance < 0 :=
  C10_sentinel_not_fatal rawNeg profile0 weights1 20 rfl (by norm_num) rfl

-- ## Aggregation helper lemmas

/-- The aggregator's `successful` list is empty exactly when every per-sample
result is an error. -/
theorem successful_empty_iff (results : List (Except String PointResult)) :
    (results.filterMap Except.toOption).isEmpty = true ↔
      ∀ r ∈ results, ∃ e, r = .error e := by
  rw [List.isEmpty_iff, List.filterMap_eq_nil_iff]
  refine forall_congr' fun r => forall_congr' fun _ => ?_
  cases r <;> simp [Except.toOption]

/-- An association list resolves a key exactly when the key is among its
first components. -/
theorem lookup_isSome_iff (l : List (String × ℚ)) (k : String) :
    (l.lookup k).isSome ↔ k ∈ l.map Prod.fst := by
  induction l with
  | nil => simp [List.lookup]
  | cons a as ih =>
    rcases a with ⟨a1, a2⟩
    by_cases hk : k = a1
    · subst hk
      simp [List.lookup]
    · have hb : (k == a1) = false := beq_eq_false_iff_ne.mpr hk
      simp only [List.lookup, hb, List.map_cons, List.mem_cons]
      rw [ih]
      simp [hk]

/-- Looking a key up in a table built over a duplicate-free key list. -/
theorem lookup_map_self (keys : List String) (f : String → ℤ) (k : String)
    (hnd : keys.Nodup) :
    ((keys.map fun x => (x, f x)).lookup k) =
      if k ∈ keys then some (f k) else none := by
  induction keys with
  | nil => simp [List.lookup]
  | cons a as ih =>
    rcases List.nodup_cons.mp hnd with ⟨_, hnd2⟩
    by_cases hk : k = a
    · subst hk
      simp [List.lookup]
    · have hb : (k == a) = false := beq_eq_false_iff_ne.mpr hk
      simp only [List.map_cons, List.lookup, hb, ih hnd2]
      simp [hk]

/-- An aggregation whose first result is a success cannot fail. -/
theorem aggregate_ok_head (pr : PointResult) (rest : List (Except String PointResult)) :
    ∃ reg, aggregate (Except.ok pr :: rest) = .ok reg := by
  unfold aggregate
  rw [if_neg (by simp [Except.toOption])]
  exact ⟨_, rfl⟩

-- ## Claims about the aggregator

/-- C5: region aggregation fails exactly when every per-sample result failed;
any sequence containing at least one success is absorbed into a produced
`RegionResult`. -/
theorem C5_aggregation_failure_iff (results : List (Except String PointResult)) :
    ((∃ e, aggregate results = .error e) ↔ ∀ r ∈ results, ∃ e, r = .error e) ∧
      ((∃ p ∈ results, ∃ pr, p = .ok pr) → ∃ reg, aggregate results = .ok reg) := by
  constructor
  · constructor
    · rintro ⟨e, he⟩
      simp only [aggregate] at he
      by_cases h : (results.filterMap Except.toOption).isEmpty = true
      · exact (successful_empty_iff results).mp h
      · rw [if_neg h] at he
        exact absurd he (by simp)
    · intro hall
      simp only [aggregate]
      rw [if_pos ((successful_empty_iff results).mpr hall)]
      exact ⟨_, rfl⟩
  · rintro ⟨p, hp, pr, rfl⟩
    simp only [aggregate]
    by_cases h : (results.filterMap Except.toOption).isEmpty = true
    · obtain ⟨e, he⟩ := (successful_empty_iff results).mp h _ hp
      exact absurd he (by simp)
    · rw [if_neg h]
      exact ⟨_, rfl⟩

/-- C9: for a produced `RegionResult`, `percent_meet_profile` is the rounded
percentage of the successful samples whose temperature, wind, humidity and
precipitation booleans all hold (the conjunction, not the composite score),
it lies in `[0, 100]`, and `samples_evaluated` counts the successes. -/
theorem C9_percent_meet_profile (results : List (Except String PointResult))
    (reg : RegionResult) (hok : aggregate results = .ok reg) :
    reg.percent_meet_profile =
      pyRound (((((results.filterMap Except.toOption).filter fun s =>
            sample_meets s.atmospheric_signature).length : ℚ) /
          ((results.filterMap Except.toOption).length : ℚ)) * 100) ∧
      0 ≤ reg.percent_meet_profile ∧ reg.percent_meet_profile ≤ 100 ∧
      reg.samples_evaluated = (results.filterMap Except.toOption).length := by
  simp only [aggregate] at hok
  by_cases h : (results.filterMap Except.toOption).isEmpty = true
  · rw [if_pos h] at hok
    exact absurd hok (by simp)
  · rw [if_neg h] at hok
    obtain rfl := (Except.ok.inj hok).symm
    have hn : 0 < (results.filterMap Except.toOption).length := by
      rw [List.isEmpty_iff] at h
      exact List.length_pos.mpr h
    have hk : ((results.filterMap Except.toOption).filter fun s =>
        sample_meets s.atmospheric_signature).length ≤
        (results.filterMap Except.toOption).length :=
      List.length_filter_le _ _
    have hq0 : (0 : ℚ) ≤
        ((((results.filterMap Except.toOption).filter fun s =>
            sample_meets s.atmospheric_signature).length : ℚ) /
          ((results.filterMap Except.toOption).length : ℚ)) * 100 := by
      positivity
    have hq100 :
        ((((results.filterMap Except.toOption).filter fun s =>
            sample_meets s.atmospheric_signature).length : ℚ) /
          ((results.filterMap Except.toOption).length : ℚ)) * 100 ≤ 100 := by
      rw [div_mul_eq_mul_div, div_le_iff₀ (by exact_mod_cast hn)]
      have hkq : ((((results.filterMap Except.toOption).filter fun s =>
          sample_meets s.atmospheric_signature).length : ℚ)) ≤
          ((results.filterMap Except.toOption).length : ℚ) := by exact_mod_cast hk
      nlinarith
    have hproj : (aggregate_success (results.filterMap Except.toOption)).percent_meet_profile =
        pyRound (((((results.filterMap Except.toOption).filter fun s =>
              sample_meets s.atmospheric_signature).length : ℚ) /
            ((results.filterMap Except.toOption).length : ℚ)) * 100) := rfl
    have hsamp : (aggregate_success (results.filterMap Except.toOption)).samples_evaluated =
        (results.filterMap Except.toOption).length := rfl
    refine ⟨hproj, ?_, ?_, hsamp⟩
    · rw [hproj]
      exact pyRound_nonneg hq0
    · rw [hproj]
      exact pyRound_le (by exact_mod_cast hq100)

/-- C9 witness: a concrete two-sample aggregation (one sample meets all four
dimensions, the other fails wind) has its verdict fields in range. -/
theorem C9_witness :
    ∃ reg, aggregate [Except.ok prA, Except.ok prB] = Except.ok reg ∧
      0 ≤ reg.percent_meet_profile ∧ reg.percent_meet_profile ≤ 100 ∧
      reg.samples_evaluated =
        (([Except.ok prA, Except.ok prB] : List (Except String PointResult)).filterMap
          Except.toOption).length := by
  obtain ⟨reg, hok⟩ := aggregate_ok_head prA [Except.ok prB]
  obtain ⟨-, h1, h2, h3⟩ := C9_percent_meet_profile [Except.ok prA, Except.ok prB] reg hok
  exact ⟨reg, hok, h1, h2, h3⟩

/-- The aggregator's `mean` is sum over length on a non-empty list. -/
theorem mean_eq (l : List ℚ) (h : l ≠ []) : mean l = l.sum / l.length := by
  simp [mean, List.isEmpty_iff, h]

/-- C2 counterexample: with two successful samples, one reporting
`golden_hour_quality = 10` and one reporting no specialty keys, the
aggregator emits 5 (the average over **all** samples with 0 for the absent
key), while the average over only the reporting samples is 10. -/
theorem C2_counterexample :
    aggregate_specialty [[("golden_hour_quality", (10 : ℚ))], []] =
      [("golden_hour_quality", 5)] ∧
    specialty_avg_reported_only [[("golden_hour_quality", (10 : ℚ))], []] =
      [("golden_hour_quality", 10)] ∧
    ((aggregate [Except.ok prA, Except.ok prB]).toOption.map
        fun reg => reg.specialty_scores) = some [("golden_hour_quality", 5)] ∧
    (5 : ℤ) ≠ 10 := by
  have h1 : aggregate_specialty [[("golden_hour_quality", (10 : ℚ))], []] =
      [("golden_hour_quality", 5)] := by
    simp only [aggregate_specialty]
    norm_num [List.dedup_cons_of_not_mem, List.lookup, mean, pyRound]
  refine ⟨h1, ?_, ?_, by norm_num⟩
  · simp only [specialty_avg_reported_only]
    norm_num [List.dedup_cons_of_not_mem, List.lookup, mean, pyRound]
  · have hagg : aggregate [Except.ok prA, Except.ok prB] =
        .ok (aggregate_success [prA, prB]) := by
      simp [aggregate, Except.toOption]
    rw [hagg]
    show some (aggregate_specialty [prA.specialty_scores, prB.specialty_scores]) = _
    rw [show prA.specialty_scores = [("golden_hour_quality", (10 : ℚ))] from rfl,
      show prB.specialty_scores = ([] : List (String × ℚ)) from rfl, h1]

/-- C2 (amended): in the aggregator, each specialty key is taken from the
union of the key sets present across the successful samples, and each key's
value is the rounded average over **all** successful samples, an absent key
contributing 0 (not the average over only the reporting samples). -/
theorem C2_specialty_union_avg (results : List (Except String PointResult))
    (reg : RegionResult) (hok : aggregate results = .ok reg) :
    (∀ k, (reg.specialty_scores.lookup k).isSome ↔
        ∃ d ∈ successful_specialty results, (d.lookup k).isSome) ∧
    (∀ k v, reg.specialty_scores.lookup k = some v →
        v = pyRound ((((successful_specialty results).map
            fun d => ((d.lookup k).getD 0)).sum /
          ((successful_specialty results).length : ℚ)))) := by
  simp only [aggregate] at hok
  by_cases h : (results.filterMap Except.toOption).isEmpty = true
  · rw [if_pos h] at hok
    exact absurd hok (by simp)
  · rw [if_neg h] at hok
    obtain rfl := (Except.ok.inj hok).symm
    have hne : results.filterMap Except.toOption ≠ [] := by
      simpa [List.isEmpty_iff] using h
    have hspne : successful_specialty results ≠ [] := by
      simpa [successful_specialty] using hne
    have hagg : (aggregate_success (results.filterMap Except.toOption)).specialty_scores =
        aggregate_specialty (successful_specialty results) := rfl
    have hkeys : ∀ k, (aggregate_specialty (successful_specialty results)).lookup k =
        (if k ∈ ((successful_specialty results).flatMap fun d => d.map Prod.fst).dedup
          then some (pyRound (mean ((successful_specialty results).map
            fun d => ((d.lookup k).getD 0))))
          else none) := by
      intro k
      simp only [aggregate_specialty]
      exact lookup_map_self _ _ _ (List.nodup_dedup _)
    rw [hagg]
    constructor
    · intro k
      rw [hkeys k]
      by_cases hk : k ∈ ((successful_specialty results).flatMap fun d => d.map Prod.fst).dedup
      · rw [if_pos hk]
        simp only [Option.isSome_some, true_iff]
        rw [List.mem_dedup, List.mem_flatMap] at hk
        obtain ⟨d, hd, hkd⟩ := hk
        exact ⟨d, hd, (lookup_isSome_iff d k).mpr hkd⟩
      · rw [if_neg hk]
        simp only [Option.isSome_none, Bool.false_eq_true, false_iff]
        rintro ⟨d, hd, hsome⟩
        exact hk (List.mem_dedup.mpr (List.mem_flatMap.mpr
          ⟨d, hd, (lookup_isSome_iff d k).mp hsome⟩))
    · intro k v hv
      rw [hkeys k] at hv
      split_ifs at hv with hk
      obtain rfl := (Option.some.inj hv).symm
      congr 1
      rw [mean_eq _ (by simpa using hspne), List.length_map]

/-- C2 witness: the amended statement instantiated at the concrete two-sample
aggregation. -/
theorem C2_witness :
    ∃ reg, aggregate [Except.ok prA, Except.ok prB] = Except.ok reg ∧
      ((∀ k, (reg.specialty_scores.lookup k).isSome ↔
          ∃ d ∈ successful_specialty [Except.ok prA, Except.ok prB], (d.lookup k).isSome) ∧
        (∀ k v, reg.specialty_scores.lookup k = some v →
          v = pyRound ((((successful_specialty [Except.ok prA, Except.ok prB]).map
              fun d => ((d.lookup k).getD 0)).sum /
            ((successful_specialty [Except.ok prA, Except.ok prB]).length : ℚ))))) := by
  obtain ⟨reg, hok⟩ := aggregate_ok_head prA [Except.ok prB]
  exact ⟨reg, hok, C2_specialty_union_avg [Except.ok prA, Except.ok prB] reg hok⟩

-- ## Sampling helper lemmas

/-- `ceilSqrt n` is the least `k` with `n ≤ k * k` — i.e. `⌈√n⌉`. -/
theorem ceilSqrt_is_least (n : ℕ) :
    n ≤ ceilSqrt n * ceilSqrt n ∧ ∀ k, n ≤ k * k → ceilSqrt n ≤ k := by
  have hn : n ≤ n * n := by nlinarith
  have hl : n ∈ (List.range (n + 1)).filter (fun k => decide (n ≤ k * k)) :=
    List.mem_filter.mpr ⟨List.mem_range.mpr (by omega), by simpa using hn⟩
  have hlne : (List.range (n + 1)).filter (fun k => decide (n ≤ k * k)) ≠ [] :=
    List.ne_nil_of_mem hl
  obtain ⟨h0, t, hcons⟩ := List.exists_cons_of_ne_nil hlne
  have hhead : ceilSqrt n = h0 := by
    rw [ceilSqrt, hcons]
    rfl
  have hsort : ((List.range (n + 1)).filter (fun k => decide (n ≤ k * k))).Pairwise (· < ·) :=
    (List.pairwise_lt_range (n + 1)).filter _
  rw [hcons] at hsort
  have hlt0 : ∀ x ∈ t, h0 < x := (List.pairwise_cons.mp hsort).1
  have hmem_le : ∀ x ∈ (List.range (n + 1)).filter (fun k => decide (n ≤ k * k)),
      h0 ≤ x := by
    intro x hx
    rw [hcons] at hx
    rcases List.mem_cons.mp hx with rfl | hx
    · exact le_refl x
    · exact le_of_lt (hlt0 x hx)
  have hh0 : h0 ∈ (List.range (n + 1)).filter (fun k => decide (n ≤ k * k)) := by
    rw [hcons]
    exact List.mem_cons_self h0 t
  obtain ⟨hh0r, hh0p⟩ := List.mem_filter.mp hh0
  constructor
  · rw [hhead]
    simpa using hh0p
  · intro k hk
    rw [hhead]
    by_cases hkn : k < n + 1
    · exact hmem_le k (List.mem_filter.mpr ⟨List.mem_range.mpr hkn, by simpa using hk⟩)
    · have := List.mem_range.mp hh0r
      omega

/-- A square grid has `side * side` cells. -/
theorem grid_cells_length (mlon mlat lstep tstep : ℚ) (side : ℕ) :
    (grid_cells mlon mlat lstep tstep side).length = side * side := by
  rw [grid_cells, List.length_flatMap]
  rw [show (List.length ∘ fun i : ℕ => (List.range side).map fun j : ℕ =>
      (mlon + ((i : ℚ) + 0.5) * lstep, mlat + ((j : ℚ) + 0.5) * tstep)) =
      fun _ : ℕ => side from funext fun i => by
    simp [List.length_map, List.length_range]]
  rw [List.map_const', List.sum_replicate, smul_eq_mul, List.length_range]

/-- One step of the sampling loop, with the containment test resolved. -/
theorem scanGrid_cons (ring : List (ℚ × ℚ)) (target : ℕ) (c : ℚ × ℚ)
    (cs : List (ℚ × ℚ)) (acc : List (ℚ × ℚ)) (b : Bool)
    (hb : point_in_poly c.1 c.2 ring = some b) :
    scanGrid ring target (c :: cs) acc =
      (let acc2 := if b then acc ++ [(c.2, c.1)] else acc
       if target ≤ acc2.length then some acc2 else scanGrid ring target cs acc2) := by
  simp only [scanGrid, hb]

/-- The sampling loop collects, in scan order, the cell centers inside the
ring (swapped to `(lat, lon)`), truncated at `target`: a closed form of the
break-out loop in `analyze_polygon`. -/
theorem scanGrid_eq_take (ring : List (ℚ × ℚ)) (target : ℕ) (cells : List (ℚ × ℚ)) :
    ∀ acc : List (ℚ × ℚ),
      (∀ c ∈ cells, point_in_poly c.1 c.2 ring ≠ none) →
      acc.length < target →
      scanGrid ring target cells acc =
        some (acc ++ (((cells.filter fun c =>
            point_in_poly c.1 c.2 ring = some true).map
          fun c => (c.2, c.1)).take (target - acc.length))) := by
  induction cells with
  | nil =>
    intro acc _ _
    simp [scanGrid]
  | cons c cs ih =>
    intro acc hdef hlt
    obtain ⟨b, hb⟩ : ∃ b, point_in_poly c.1 c.2 ring = some b := by
      rcases hx : point_in_poly c.1 c.2 ring with _ | b
      · exact absurd hx (hdef c (List.mem_cons_self c cs))
      · exact ⟨b, rfl⟩
    have hdef2 : ∀ x ∈ cs, point_in_poly x.1 x.2 ring ≠ none :=
      fun x hx => hdef x (List.mem_cons_of_mem c hx)
    cases b with
    | false =>
      have hfil2 : ((c :: cs).filter fun x => point_in_poly x.1 x.2 ring = some true) =
          cs.filter fun x => point_in_poly x.1 x.2 ring = some true := by
        simp [List.filter_cons, hb]
      have hstep : scanGrid ring target (c :: cs) acc = scanGrid ring target cs acc := by
        rw [scanGrid_cons ring target c cs acc false hb]
        simp only [Bool.false_eq_true, if_false]
        rw [if_neg (by omega)]
      rw [hstep, hfil2]
      exact ih acc hdef2 hlt
    | true =>
      have hfil2 : ((c :: cs).filter fun x => point_in_poly x.1 x.2 ring = some true) =
          c :: (cs.filter fun x => point_in_poly x.1 x.2 ring = some true) := by
        simp [List.filter_cons, hb]
      rw [hfil2, List.map_cons]
      obtain ⟨k, hk⟩ : ∃ k, target - acc.length = k + 1 :=
        ⟨target - acc.length - 1, by omega⟩
      rw [hk, List.take_succ_cons]
      rw [scanGrid_cons ring target c cs acc true hb]
      simp only [eq_self_iff_true, if_true, List.length_append, List.length_singleton]
      by_cases hT : target ≤ acc.length + 1
      · rw [if_pos hT]
        have hk0 : k = 0 := by omega
        rw [hk0]
        simp
      · rw [if_neg hT]
        rw [ih (acc ++ [(c.2, c.1)]) hdef2 (by simp; omega)]
        have hk2 : target - (acc ++ [(c.2, c.1)]).length = k := by simp; omega
        rw [hk2]
        simp

-- ## Claims about the region sampler

/-- C7: a ring whose bounding box has zero width or zero height yields
exactly one sample, placed at the vertex-average centroid. -/
theorem C7_degenerate_centroid (ring : List (ℚ × ℚ)) (sample_count : ℤ)
    (_hne : ring ≠ [])
    (hdeg : bbox_max_lon ring = bbox_min_lon ring ∨
      bbox_max_lat ring = bbox_min_lat ring) :
    generate_samples ring sample_count =
      some [(centroid_lat ring, centroid_lon ring)] ∧
    (generate_samples ring sample_count).map List.length = some 1 := by
  have hcond : bbox_max_lon ring - bbox_min_lon ring ≤ 0 ∨
      bbox_max_lat ring - bbox_min_lat ring ≤ 0 := by
    rcases hdeg with h | h
    · left
      rw [h, sub_self]
    · right
      rw [h, sub_self]
  have hmain : generate_samples ring sample_count =
      some [(centroid_lat ring, centroid_lon ring)] := by
    rw [generate_samples, if_pos hcond]
  exact ⟨hmain, by rw [hmain]; rfl⟩

/-- C7 witness: a two-vertex ring of zero width yields the single centroid
sample. -/
theorem C7_witness :
    generate_samples ringDeg 9 =
      some [(centroid_lat ringDeg, centroid_lon ringDeg)] ∧
    (generate_samples ringDeg 9).map List.length = some 1 :=
  C7_degenerate_centroid ringDeg 9 (by simp [ringDeg])
    (Or.inl (by norm_num [ringDeg, bbox_max_lon, bbox_min_lon, listMax, listMin]))

/-- C6: for a ring with a non-degenerate bounding box, sample generation
clamps the requested count into `[1, 36]`, scans a square grid whose side is
`ceil(sqrt(target))` (so the grid has at least `target` cells), and keeps the
interior cell centers in row-major scan order, truncated at the target (the
hypotheses say every scanned containment test is defined and at least one
cell center lies inside, so the centroid fallback is not taken). -/
theorem C6_grid_sampling (ring : List (ℚ × ℚ)) (sample_count : ℤ)
    (hlon : bbox_min_lon ring < bbox_max_lon ring)
    (hlat : bbox_min_lat ring < bbox_max_lat ring)
    (hdef : ∀ c ∈ ring_cells ring sample_count, point_in_poly c.1 c.2 ring ≠ none)
    (hfil : (ring_cells ring sample_count).filter
        (fun c => point_in_poly c.1 c.2 ring = some true) ≠ []) :
    generate_samples ring sample_count =
      some ((((ring_cells ring sample_count).filter fun c =>
          point_in_poly c.1 c.2 ring = some true).map
        fun c => (c.2, c.1)).take (clamp_count sample_count)) ∧
    1 ≤ clamp_count sample_count ∧ clamp_count sample_count ≤ 36 ∧
    grid_side sample_count = ceilSqrt (clamp_count sample_count) ∧
    (ring_cells ring sample_count).length =
      grid_side sample_count * grid_side sample_count ∧
    clamp_count sample_count ≤ (ring_cells ring sample_count).length := by
  have hc1 : 1 ≤ clamp_count sample_count := by
    have h1 : (1 : ℤ) ≤ max 1 (min 36 sample_count) := le_max_left _ _
    rw [clamp_count]
    omega
  have hc36 : clamp_count sample_count ≤ 36 := by
    have h2 : max 1 (min 36 sample_count) ≤ (36 : ℤ) :=
      max_le (by norm_num) (min_le_left _ _)
    rw [clamp_count]
    omega
  have hcs := ceilSqrt_is_least (clamp_count sample_count)
  have hside1 : 1 ≤ ceilSqrt (clamp_count sample_count) := by
    rcases Nat.eq_zero_or_pos (ceilSqrt (clamp_count sample_count)) with h0 | h1
    · exfalso
      have h2 := hcs.1
      rw [h0] at h2
      omega
    · exact h1
  have hside : grid_side sample_count = ceilSqrt (clamp_count sample_count) := by
    rw [grid_side]
    exact max_eq_right hside1
  have hlen : (ring_cells ring sample_count).length =
      grid_side sample_count * grid_side sample_count := by
    rw [ring_cells]
    exact grid_cells_length _ _ _ _ _
  have hclen : clamp_count sample_count ≤ (ring_cells ring sample_count).length := by
    rw [hlen, hside]
    exact hcs.1
  refine ⟨?_, hc1, hc36, hside, hlen, hclen⟩
  rw [generate_samples]
  rw [if_neg (by
    push_neg
    constructor <;> linarith)]
  rw [scanGrid_eq_take ring (clamp_count sample_count)
    (ring_cells ring sample_count) [] hdef (by simpa using hc1)]
  simp only [List.nil_append, List.length_nil, Nat.sub_zero]
  have hne : (((ring_cells ring sample_count).filter fun c =>
      point_in_poly c.1 c.2 ring = some true).map
      fun c => (c.2, c.1)).take (clamp_count sample_count) ≠ [] := by
    rw [ne_eq, List.take_eq_nil_iff]
    push_neg
    constructor
    · omega
    · rw [ne_eq, List.map_eq_nil_iff]
      exact hfil
  have hfalse : ((((ring_cells ring sample_count).filter fun c =>
      point_in_poly c.1 c.2 ring = some true).map
      fun c => (c.2, c.1)).take (clamp_count sample_count)).isEmpty = false := by
    rw [List.isEmpty_eq_false]
    exact hne
  rw [hfalse]
  simp

/-- The unit square's edge walk, spelled out. -/
theorem ringSq_edges : polyEdges ringSq =
    [(((0 : ℚ), (0 : ℚ)), ((0 : ℚ), (1 : ℚ))),
     (((1 : ℚ), (0 : ℚ)), ((0 : ℚ), (0 : ℚ))),
     (((1 : ℚ), (1 : ℚ)), ((1 : ℚ), (0 : ℚ))),
     (((0 : ℚ), (1 : ℚ)), ((1 : ℚ), (1 : ℚ)))] := rfl

/-- The center of the unit square is classified inside. -/
theorem pip_center_ringSq : point_in_poly (1/2) (1/2) ringSq = some true := by
  rw [point_in_poly, ringSq_edges]
  simp only [List.foldl_cons, List.foldl_nil]
  norm_num [pipStep, epsQ]

/-- The single grid cell the scan visits for `ringSq` with requested count 1. -/
theorem ringSq_cells : ring_cells ringSq 1 = [((1 : ℚ)/2, (1 : ℚ)/2)] := by
  have hclamp : clamp_count 1 = 1 := by norm_num [clamp_count]
  have hside : grid_side 1 = 1 := by
    rw [grid_side, hclamp]
    decide
  have hminlon : bbox_min_lon ringSq = 0 := by
    norm_num [bbox_min_lon, ringSq, listMin, List.foldl]
  have hmaxlon : bbox_max_lon ringSq = 1 := by
    norm_num [bbox_max_lon, ringSq, listMax, List.foldl]
  have hminlat : bbox_min_lat ringSq = 0 := by
    norm_num [bbox_min_lat, ringSq, listMin, List.foldl]
  have hmaxlat : bbox_max_lat ringSq = 1 := by
    norm_num [bbox_max_lat, ringSq, listMax, List.foldl]
  rw [ring_cells, hside, hminlon, hmaxlon, hminlat, hmaxlat]
  rw [grid_cells, show List.range 1 = [0] from rfl]
  norm_num [List.flatMap_cons, List.flatMap_nil]

/-- C6 witness: the concrete unit square with requested count 1 — the scan
has a defined containment test at its single cell, that cell is interior,
and the generated sample list is the truncated filter. -/
theorem C6_witness :
    generate_samples ringSq 1 =
      some ((((ring_cells ringSq 1).filter fun c =>
          point_in_poly c.1 c.2 ringSq = some true).map
        fun c => (c.2, c.1)).take (clamp_count 1)) ∧
    1 ≤ clamp_count 1 ∧ clamp_count 1 ≤ 36 ∧
    grid_side 1 = ceilSqrt (clamp_count 1) ∧
    (ring_cells ringSq 1).length = grid_side 1 * grid_side 1 ∧
    clamp_count 1 ≤ (ring_cells ringSq 1).length := by
  have hminlon : bbox_min_lon ringSq = 0 := by
    norm_num [bbox_min_lon, ringSq, listMin, List.foldl]
  have hmaxlon : bbox_max_lon ringSq = 1 := by
    norm_num [bbox_max_lon, ringSq, listMax, List.foldl]
  have hminlat : bbox_min_lat ringSq = 0 := by
    norm_num [bbox_min_lat, ringSq, listMin, List.foldl]
  have hmaxlat : bbox_max_lat ringSq = 1 := by
    norm_num [bbox_max_lat, ringSq, listMax, List.foldl]
  refine C6_grid_sampling ringSq 1 ?_ ?_ ?_ ?_
  · rw [hminlon, hmaxlon]
    norm_num
  · rw [hminlat, hmaxlat]
    norm_num
  · rw [ringSq_cells]
    intro c hc
    obtain rfl := List.mem_singleton.mp hc
    rw [pip_center_ringSq]
    simp
  · have hfl : (([((1 : ℚ)/2, (1 : ℚ)/2)] : List (ℚ × ℚ)).filter fun c =>
        point_in_poly c.1 c.2 ringSq = some true) = [((1 : ℚ)/2, (1 : ℚ)/2)] := by
      rw [List.filter_cons, show decide (point_in_poly ((1 : ℚ)/2, (1 : ℚ)/2).1
        ((1 : ℚ)/2, (1 : ℚ)/2).2 ringSq = some true) = true from
        decide_eq_true pip_center_ringSq]
      simp
    rw [ringSq_cells, hfl]
    simp

-- ## Claims about the point-in-polygon test

/-- The edge walk of the counterexample triangle, spelled out. -/
theorem cexRing_edges : polyEdges cexRing =
    [(((8 : ℚ), (0 : ℚ)), ((12 : ℚ), 2 * epsQ)),
     (((10 : ℚ), (0 : ℚ)), ((8 : ℚ), (0 : ℚ))),
     (((12 : ℚ), 2 * epsQ), ((10 : ℚ), (0 : ℚ)))] := rfl

/-- C8 counterexample: `cexRing` is a strictly convex, non-degenerate ring,
its vertex-average centroid is strictly inside it, yet the ray-casting test
classifies the centroid as **outside**: the `1e-12` guard added to `yj - yi`
shifts the crossing abscissa of the nearly horizontal edge from `32/3` to
`28/3`, past the centroid longitude `10`. -/
theorem C8_counterexample :
    strictly_convex cexRing = true ∧
    strictly_inside (centroid_lon cexRing, centroid_lat cexRing) cexRing = true ∧
    point_in_poly (centroid_lon cexRing) (centroid_lat cexRing) cexRing =
      some false := by
  have hlon : centroid_lon cexRing = 10 := by
    norm_num [centroid_lon, cexRing, List.sum_cons]
  have hlat : centroid_lat cexRing = 2 * epsQ / 3 := by
    norm_num [centroid_lat, cexRing, List.sum_cons, epsQ]
  refine ⟨?_, ?_, ?_⟩
  · rw [strictly_convex]
    norm_num [cexRing, List.all_cons, ringVertex, cross2, epsQ]
    left
    intro x hx
    interval_cases x <;>
      norm_num [List.getElem?_cons_zero, List.getElem?_cons_succ]
  · rw [hlon, hlat, strictly_inside]
    norm_num [cexRing, List.all_cons, ringVertex, cross2, epsQ]
    left
    intro x hx
    interval_cases x <;>
      norm_num [List.getElem?_cons_zero, List.getElem?_cons_succ]
  · rw [hlon, hlat, point_in_poly, cexRing_edges]
    simp only [List.foldl_cons, List.foldl_nil]
    norm_num [pipStep, epsQ]

/-- C8 (amended): for an axis-aligned rectangle ring with positive width and
height (its height differing from the `1e-12` epsilon guard, where the Python
code would divide by zero), the ray-casting test classifies the vertex-average
centroid — the rectangle's center — as inside. -/
theorem C8_rectangle_centroid (a b c d : ℚ) (hac : a < c) (hbd : b < d)
    (hde : d - b ≠ epsQ) :
    point_in_poly ((a + c) / 2) ((b + d) / 2) [(a, b), (c, b), (c, d), (a, d)] =
      some true := by
  have heps : (0 : ℚ) < epsQ := by norm_num [epsQ]
  have hedges : polyEdges [(a, b), (c, b), (c, d), (a, d)] =
      [((a, b), (a, d)), ((c, b), (a, b)), ((c, d), (c, b)), ((a, d), (c, d))] := rfl
  have hlatb : ¬ ((b + d) / 2 < b) := by linarith
  have hlatd : (b + d) / 2 < d := by linarith
  rw [point_in_poly, hedges]
  simp only [List.foldl_cons, List.foldl_nil]
  have h1 : pipStep ((a + c) / 2) ((b + d) / 2) (some false) ((a, b), (a, d)) =
      some false := by
    rw [pipStep]
    simp only [decide_eq_false hlatb, decide_eq_true hlatd]
    norm_num
    constructor
    · intro h0
      linarith
    · linarith
  have h2 : pipStep ((a + c) / 2) ((b + d) / 2) (some false) ((c, b), (a, b)) =
      some false := by
    rw [pipStep]
    simp only [decide_eq_false hlatb]
    norm_num
  have h3 : pipStep ((a + c) / 2) ((b + d) / 2) (some false) ((c, d), (c, b)) =
      some true := by
    rw [pipStep]
    simp only [decide_eq_false hlatb, decide_eq_true hlatd]
    norm_num
    constructor
    · intro h0
      exact hde (by linarith)
    · linarith
  have h4 : pipStep ((a + c) / 2) ((b + d) / 2) (some true) ((a, d), (c, d)) =
      some true := by
    rw [pipStep]
    simp only [decide_eq_true hlatd]
    norm_num
  rw [h1, h2, h3, h4]

/-- C8 amended-claim witness: the centroid of the unit-length-2 square. -/
theorem C8_rectangle_witness :
    point_in_poly ((0 + 2) / 2) ((0 + 2) / 2)
      [((0 : ℚ), (0 : ℚ)), (2, 0), (2, 2), (0, 2)] = some true :=
  C8_rectangle_centroid 0 0 2 2 (by norm_num) (by norm_num) (by norm_num [epsQ])
